import Mathlib

/-!
Verification of the frui runtime core: the type-erased state facade,
structural equality of erased widget configurations, build-context state
guards with dirty marking and suppression, the inherited-state dependency
graph, `Container::layout`, and `KeyboardEventDetector` lifecycle.

Shallow embedding: Rust `TypeId`s become an inductive tag type, erased
`Box<dyn Any>` values carry their tag, panicking operations return
`Option`, and the mutable tree state (dirty flags, dependents sets,
suppression flag) is threaded explicitly.
-/

namespace Frui

/-- Runtime type identities (`std::any::TypeId`) that appear in the core:
the local marker struct `WidgetHasNoState`, the type `RefCell<()>` of the
default erased state value, and the per-widget state types `T::State`
(one identity per `id`). -/
inductive TypeTag where
  | widgetHasNoState
  | refCellUnit
  | stateTy (id : Nat)
deriving DecidableEq, Repr

/-- An erased `Box<dyn Any>` state value: its dynamic type tag plus a
payload (state contents abstracted to a natural number). -/
structure ErasedState where
  tag : TypeTag
  val : Nat
deriving DecidableEq, Repr

/-- A widget configuration as the facade sees it: either the widget
implements `WidgetState` (with state type identity `id` and the initial
state value its `create_state` produces), or it does not and falls into
the specialization default. -/
inductive WidgetConf where
  | stateless
  | stateful (id : Nat) (init : Nat)
deriving DecidableEq, Repr

/-- `WidgetStateOS::state_type_id`: the specialized impl for
`T: WidgetState` returns `TypeId::of::<T::State>()`; the default impl
returns `TypeId::of::<WidgetHasNoState>()`. -/
def state_type_id : WidgetConf → TypeTag
  | .stateless => .widgetHasNoState
  | .stateful id _ => .stateTy id

/-- `WidgetStateOS::create_state`: the specialized impl boxes
`T::create_state(&self)` (dynamic type `T::State`); the default impl
boxes `RefCell::new(())` (dynamic type `RefCell<()>`). -/
def create_state : WidgetConf → ErasedState
  | .stateless => { tag := .refCellUnit, val := 0 }
  | .stateful id init => { tag := .stateTy id, val := init }

/-- `<dyn Any>::downcast_ref::<T>`: succeeds exactly when the value's
dynamic type equals the requested type. -/
def downcast (e : ErasedState) (t : TypeTag) : Option Nat :=
  if e.tag = t then some e.val else none

/-- `StateGuard::deref` / `StateGuardMut::deref_mut`: downcasts the
node's erased state to the guard's expected state type and unwraps.
The `unwrap` panic is modelled by `none`. -/
def stateGuardDeref (e : ErasedState) (t : TypeTag) : Option Nat :=
  downcast e t

/-- An erased widget configuration handed to `StructuralEqOS::eq` as
`&dyn AnyExt`: its concrete type identity and its field contents
(abstracted to a natural number). -/
structure ErasedWidget where
  tyId : Nat
  val : Nat
deriving DecidableEq, Repr

/-- Result of `StructuralEqOS::eq`: the boolean verdict plus the
diagnostics the call printed to stderr. A value (rather than a
divergence) models that the call returns without panicking. -/
structure EqResult where
  verdict : Bool
  diagnostics : List String
deriving DecidableEq, Repr

/-- `StructuralEqOS::eq` for a widget of concrete type `self.tyId`:
downcast `other` to that type; on success defer to the widget's own
`StructuralEq::eq` (the family `structEq`, one comparison per concrete
type); on failure print the bug diagnostic and answer `false`. -/
def StructuralEqOS.eq (structEq : Nat → Nat → Nat → Bool)
    (self other : ErasedWidget) : EqResult :=
  if other.tyId = self.tyId then
    { verdict := structEq self.tyId self.val other.val, diagnostics := [] }
  else
    { verdict := false,
      diagnostics :=
        ["WidgetEqOS: cannot compare widgets of different types. This is a bug."] }

/-- A tree node as the build context sees it: erased state, dirty flag,
the set of dependent node identities (for inherited-state providers),
the non-owning parent back-reference, and the widget-kind identity
(`UniqueTypeId`) used by inherited-widget ancestor lookup. -/
structure Node where
  state : ErasedState
  dirty : Bool
  dependents : List Nat
  parent : Option Nat
  kind : Nat
deriving DecidableEq, Repr

/-- The mutable runtime state the claims are about: the tree's nodes
(identified by index) and the process-wide
`STATE_UPDATE_SUPRESSED` flag. -/
structure AppState where
  nodes : List Node
  suppressed : Bool
deriving DecidableEq, Repr

/-- Dirty flag of node `i`, `none` when no such node exists. -/
def dirtyAt (nodes : List Node) (i : Nat) : Option Bool :=
  (nodes[i]?).map Node.dirty

/-- Dependents set of node `i`, `none` when no such node exists. -/
def depsAt (nodes : List Node) (i : Nat) : Option (List Nat) :=
  (nodes[i]?).map Node.dependents

/-- Widget-kind identity of node `i`, `none` when no such node exists. -/
def kindAt (nodes : List Node) (i : Nat) : Option Nat :=
  (nodes[i]?).map Node.kind

/-- Modelled from the spec: `WidgetNodeRef::mark_dirty` lives in
`crates/frui_core/src/app/tree.rs`, which is not under src/. Per the
spec, `dirty` is a per-node boolean and marking sets it to true. -/
def markDirty (nodes : List Node) (i : Nat) : List Node :=
  match nodes[i]? with
  | some n => nodes.set i { n with dirty := true }
  | none => nodes

/-- Modelled from the spec:
`WidgetNodeRef::mark_dependent_widgets_as_dirty` lives in
`crates/frui_core/src/app/tree.rs`, which is not under src/. Per the
spec, the notification algorithm "marks every node currently in
`dependents` dirty" with no transitive recursion. -/
def markDependentsDirty (nodes : List Node) (i : Nat) : List Node :=
  match nodes[i]? with
  | some n => n.dependents.foldl markDirty nodes
  | none => nodes

/-- `_BuildContext::state_mut` (state effect at guard creation): if
`STATE_UPDATE_SUPRESSED` is not set, `self.node.mark_dirty()`; then the
`StateGuardMut` is returned. -/
def state_mut (s : AppState) (i : Nat) : AppState :=
  if s.suppressed then s
  else { s with nodes := markDirty s.nodes i }

/-- `StateGuardMut` implements no `Drop` in the source; dropping it only
releases the `RefMut` borrow, so the drop performs no tree effect. -/
def stateGuardMutDrop (s : AppState) : AppState :=
  s

/-- `_BuildContext::state`: builds a read guard via `Ref::map` over the
node's erased state; no tree effect. The pair returns the (unchanged)
runtime state together with the guarded erased state value. -/
def state (s : AppState) (i : Nat) : AppState × Option ErasedState :=
  (s, (s.nodes[i]?).map Node.state)

/-- `InheritedState::as_ref`: builds a read guard via `Ref::map` over
the ancestor's erased state; no tree effect. -/
def InheritedState.as_ref (s : AppState) (i : Nat) :
    AppState × Option ErasedState :=
  (s, (s.nodes[i]?).map Node.state)

/-- `InheritedState::as_mut`: if `STATE_UPDATE_SUPRESSED` is not set,
`self.node.mark_dirty()` then
`self.node.mark_dependent_widgets_as_dirty()`; then the
`InheritedStateRefMut` guard is returned. -/
def InheritedState.as_mut (s : AppState) (i : Nat) : AppState :=
  if s.suppressed then s
  else { s with nodes := markDependentsDirty (markDirty s.nodes i) i }

/-- Modelled from the spec: the driver's mount/unmount wrapper (in
`crates/frui_core/src/app/tree.rs`, not under src/) sets the suppression
flag around the lifecycle callback and restores its prior value after
the callback returns. -/
def withSuppression (body : AppState → AppState) (s : AppState) : AppState :=
  let s1 := body { s with suppressed := true }
  { s1 with suppressed := s.suppressed }

/-- The chain of ancestors starting at `start` (inclusive), following
`parent` back-references; fuelled so that the walk is total even on
ill-formed parent links. -/
def ancestorChain (nodes : List Node) : Nat → Option Nat → List Nat
  | 0, _ => []
  | _, none => []
  | fuel + 1, some i =>
    match nodes[i]? with
    | none => []
    | some n => i :: ancestorChain nodes fuel n.parent

/-- Modelled from the spec: the ancestor search inside
`WidgetNodeRef::depend_on_inherited_widget_of_key` (in
`crates/frui_core/src/app/tree.rs`, not under src/) "searches ancestors
for the nearest node whose widget-kind identity matches `Key`". -/
def findAncestorOfKey (nodes : List Node) (key : Nat) :
    Nat → Option Nat → Option Nat
  | 0, _ => none
  | _, none => none
  | fuel + 1, some i =>
    match nodes[i]? with
    | none => none
    | some n =>
      if n.kind = key then some i
      else findAncestorOfKey nodes key fuel n.parent

/-- Modelled from the spec: registration inside
`depend_on_inherited_widget_of_key` inserts the current node's identity
into the found ancestor's `dependents` set (set semantics: inserting a
member again is a no-op). -/
def addDependent (nodes : List Node) (a dep : Nat) : List Node :=
  match nodes[a]? with
  | none => nodes
  | some n =>
    if dep ∈ n.dependents then nodes
    else nodes.set a { n with dependents := n.dependents ++ [dep] }

/-- Parent back-reference of node `i`. -/
def parentOf (nodes : List Node) (i : Nat) : Option Nat :=
  (nodes[i]?).bind Node.parent

/-- `_BuildContext::depend_on_inherited_widget::<W>` for the node `i`:
searches `i`'s ancestors for the nearest node of kind `key`
(`W::UniqueTypeId`); if found, registers `i` into that ancestor's
`dependents` set and returns `Some` handle to the ancestor; otherwise
returns `None` having changed nothing. -/
def depend_on_inherited_widget (s : AppState) (i : Nat) (key : Nat) :
    AppState × Option Nat :=
  match findAncestorOfKey s.nodes key s.nodes.length (parentOf s.nodes i) with
  | none => (s, none)
  | some a => ({ s with nodes := addDependent s.nodes a i }, some a)

/-- Layout constraints (the fields `Container::layout` touches, over an
abstract dimension type standing in for `f64`). -/
structure Constraints (α : Type) where
  min_width : α
  max_width : α
  min_height : α
  max_height : α
deriving DecidableEq, Repr

/-- A laid-out size. -/
structure Size (α : Type) where
  width : α
  height : α
deriving DecidableEq, Repr

/-- The `Container` configuration fields `layout` reads. -/
structure Container (α : Type) where
  width : Option α
  height : Option α
deriving DecidableEq, Repr

/-- `Container::layout`: lays out the child with the incoming
constraints, with `max_width`/`max_height` overridden by the
container's `width`/`height` when `Some` (`unwrap_or`), then returns a
size whose dimensions are the container's `width`/`height` when `Some`,
else the child's resulting dimensions. `childLayout` is
`ctx.child().layout`. -/
def Container.layout {α : Type} (c : Container α)
    (childLayout : Constraints α → Size α) (constraints : Constraints α) :
    Size α :=
  let size := childLayout
    { constraints with
      max_width := c.width.getD constraints.max_width
      max_height := c.height.getD constraints.max_height }
  { width := c.width.getD size.width, height := c.height.getD size.height }

/-- `KeyboardEventDetector::create_state`: the initial state is `None`
(no callback key stored yet). `CallbackKey` is abstracted to `Nat`. -/
def KeyboardEventDetector.create_state : Option Nat :=
  none

/-- Modelled from the spec: the external keyboard listener registry
(`frui::app::listeners::keyboard`, not under src/), as the set of
registered callback keys; `register` adds a fresh key, `unregister`
removes the given key. -/
def Listeners.unregister (registry : List Nat) (k : Nat) : List Nat :=
  registry.erase k

/-- `KeyboardEventDetector::mount`: registers the callback with the
external registry and stores the returned key in the node's state
(through `state_mut`, which the driver invokes under suppression). -/
def KeyboardEventDetector.mount (registry : List Nat) (freshKey : Nat) :
    Option Nat × List Nat :=
  (some freshKey, registry ++ [freshKey])

/-- `KeyboardEventDetector::unmount`: takes the stored key (`unwrap`
panics when the state is `None`, modelled by `none`), unregisters it
from the external registry, and resets the state to `None`. -/
def KeyboardEventDetector.unmount (st : Option Nat) (registry : List Nat) :
    Option (Option Nat × List Nat) :=
  match st with
  | none => none
  | some k => some (none, Listeners.unregister registry k)

/-- Concrete example tree root: an inherited-state provider of kind 7
whose `dependents` set currently holds node 1. -/
def exProvider : Node :=
  { state := { tag := .stateTy 7, val := 0 }, dirty := false,
    dependents := [1], parent := none, kind := 7 }

/-- Concrete example node 1: a child of node 0, registered in its
`dependents` set. -/
def exChild : Node :=
  { state := { tag := .stateTy 1, val := 0 }, dirty := false,
    dependents := [], parent := some 0, kind := 1 }

/-- Concrete example node 2: a child of node 0 that is not in its
`dependents` set. -/
def exOther : Node :=
  { state := { tag := .stateTy 2, val := 0 }, dirty := false,
    dependents := [], parent := some 0, kind := 2 }

/-- A concrete three-node tree with suppression off. -/
def exS : AppState :=
  { nodes := [exProvider, exChild, exOther], suppressed := false }

theorem length_markDirty (nodes : List Node) (i : Nat) :
    (markDirty nodes i).length = nodes.length := by
  unfold markDirty
  cases nodes[i]? with
  | none => rfl
  | some n => exact List.length_set ..

theorem getElem?_markDirty (nodes : List Node) (i j : Nat) :
    (markDirty nodes i)[j]? =
      if j = i then nodes[j]?.map (fun n => { n with dirty := true })
      else nodes[j]? := by
  unfold markDirty
  cases hg : nodes[i]? with
  | none =>
    by_cases hji : j = i
    · subst hji; simp [hg]
    · simp [hji]
  | some n =>
    by_cases hji : j = i
    · subst hji
      rw [if_pos rfl, List.getElem?_set_self', hg]
      rfl
    · rw [if_neg hji, List.getElem?_set_ne (fun h => hji h.symm)]

theorem dirtyAt_markDirty (nodes : List Node) (i j : Nat) :
    dirtyAt (markDirty nodes i) j =
      if j = i then (dirtyAt nodes j).map (fun _ => true)
      else dirtyAt nodes j := by
  simp only [dirtyAt, getElem?_markDirty]
  by_cases hji : j = i
  · simp only [if_pos hji]
    cases nodes[j]? <;> rfl
  · simp only [if_neg hji]

theorem depsAt_markDirty (nodes : List Node) (i j : Nat) :
    depsAt (markDirty nodes i) j = depsAt nodes j := by
  simp only [depsAt, getElem?_markDirty]
  by_cases hji : j = i
  · simp only [if_pos hji]
    cases nodes[j]? <;> rfl
  · simp only [if_neg hji]

theorem dirtyAt_foldl_markDirty (deps : List Nat) (nodes : List Node)
    (j : Nat) :
    dirtyAt (deps.foldl markDirty nodes) j =
      if j ∈ deps then (dirtyAt nodes j).map (fun _ => true)
      else dirtyAt nodes j := by
  induction deps generalizing nodes with
  | nil => simp
  | cons d ds ih =>
    rw [List.foldl_cons, ih]
    by_cases hds : j ∈ ds
    · rw [if_pos hds, if_pos (List.mem_cons_of_mem _ hds), dirtyAt_markDirty]
      by_cases hjd : j = d
      · rw [if_pos hjd]
        cases dirtyAt nodes j <;> rfl
      · rw [if_neg hjd]
    · rw [if_neg hds, dirtyAt_markDirty]
      by_cases hjd : j = d
      · rw [if_pos hjd, if_pos (by simp [hjd])]
      · rw [if_neg hjd, if_neg (by simp [hjd, hds])]

theorem markDependentsDirty_eq (nodes : List Node) (i : Nat)
    (deps : List Nat) (h : depsAt nodes i = some deps) :
    markDependentsDirty nodes i = deps.foldl markDirty nodes := by
  unfold markDependentsDirty
  cases hg : nodes[i]? with
  | none => simp [depsAt, hg] at h
  | some n =>
    simp only [depsAt, hg, Option.map_some', Option.some.injEq] at h
    simp only [h]

theorem findAncestorOfKey_eq_none_iff (nodes : List Node) (key fuel : Nat)
    (start : Option Nat) :
    findAncestorOfKey nodes key fuel start = none ↔
      ∀ j ∈ ancestorChain nodes fuel start, kindAt nodes j ≠ some key := by
  induction fuel generalizing start with
  | zero => simp [findAncestorOfKey, ancestorChain]
  | succ fuel ih =>
    cases start with
    | none => simp [findAncestorOfKey, ancestorChain]
    | some i =>
      simp only [findAncestorOfKey, ancestorChain]
      cases hg : nodes[i]? with
      | none => simp
      | some n =>
        by_cases hk : n.kind = key
        · simp only [if_pos hk]
          constructor
          · intro h
            exact absurd h (by simp)
          · intro h
            exact absurd (h i (List.mem_cons_self _ _))
              (by simp [kindAt, hg, hk])
        · simp only [if_neg hk, ih]
          constructor
          · intro h j hj
            rcases List.mem_cons.mp hj with rfl | hj
            · simp only [kindAt, hg, Option.map_some', ne_eq,
                Option.some.injEq]
              exact hk
            · exact h j hj
          · intro h j hj
            exact h j (List.mem_cons_of_mem _ hj)

theorem findAncestorOfKey_kind (nodes : List Node) (key fuel : Nat)
    (start : Option Nat) (a : Nat)
    (h : findAncestorOfKey nodes key fuel start = some a) :
    kindAt nodes a = some key := by
  induction fuel generalizing start with
  | zero => simp [findAncestorOfKey] at h
  | succ fuel ih =>
    cases start with
    | none => simp [findAncestorOfKey] at h
    | some i =>
      simp only [findAncestorOfKey] at h
      cases hg : nodes[i]? with
      | none => rw [hg] at h; exact absurd h (by simp)
      | some n =>
        rw [hg] at h
        dsimp only at h
        by_cases hk : n.kind = key
        · rw [if_pos hk] at h
          obtain rfl : i = a := Option.some.inj h
          simp [kindAt, hg, hk]
        · rw [if_neg hk] at h
          exact ih _ h

theorem getElem?_addDependent_ne (nodes : List Node) (a dep b : Nat)
    (hb : b ≠ a) : (addDependent nodes a dep)[b]? = nodes[b]? := by
  unfold addDependent
  cases nodes[a]? with
  | none => rfl
  | some n =>
    dsimp only
    by_cases hc : dep ∈ n.dependents
    · rw [if_pos hc]
    · rw [if_neg hc, List.getElem?_set_ne (fun h => hb h.symm)]

theorem depsAt_addDependent_self (nodes : List Node) (a dep : Nat)
    (n : Node) (hg : nodes[a]? = some n) :
    depsAt (addDependent nodes a dep) a =
      some (if dep ∈ n.dependents then n.dependents
            else n.dependents ++ [dep]) := by
  unfold addDependent
  rw [hg]
  dsimp only
  by_cases hc : dep ∈ n.dependents
  · rw [if_pos hc, if_pos hc]
    simp [depsAt, hg]
  · rw [if_neg hc, if_neg hc]
    simp [depsAt, List.getElem?_set_self', hg]

theorem findAncestorOfKey_mem_chain (nodes : List Node) (key fuel : Nat)
    (start : Option Nat) (a : Nat)
    (h : findAncestorOfKey nodes key fuel start = some a) :
    a ∈ ancestorChain nodes fuel start := by
  induction fuel generalizing start with
  | zero => simp [findAncestorOfKey] at h
  | succ fuel ih =>
    cases start with
    | none => simp [findAncestorOfKey] at h
    | some i =>
      simp only [findAncestorOfKey] at h
      simp only [ancestorChain]
      cases hg : nodes[i]? with
      | none => rw [hg] at h; exact absurd h (by simp)
      | some n =>
        rw [hg] at h
        dsimp only at h
        by_cases hk : n.kind = key
        · rw [if_pos hk] at h
          obtain rfl : i = a := Option.some.inj h
          exact List.mem_cons_self _ _
        · rw [if_neg hk] at h
          exact List.mem_cons_of_mem _ (ih _ h)

theorem dirtyAt_state_mut_self (s : AppState) (i : Nat)
    (hsup : s.suppressed = false) (h : i < s.nodes.length) :
    dirtyAt (state_mut s i).nodes i = some true := by
  simp only [state_mut, hsup, Bool.false_eq_true, if_false]
  rw [dirtyAt_markDirty, if_pos rfl]
  simp [dirtyAt, List.getElem?_eq_getElem h]

/-- C1: at guard creation, `state_mut` sets the node's dirty flag to
true exactly when the process-wide suppression flag is not set: with
suppression off the flag reads true immediately after the call; with
suppression on the runtime state is untouched; and mutable state access
performed inside a mount/unmount invocation (which runs under
suppression) leaves the whole runtime state, dirty flags included,
unchanged. -/
theorem state_mut_dirty_iff_not_suppressed (s : AppState) (i : Nat)
    (h : i < s.nodes.length) :
    (s.suppressed = false → dirtyAt (state_mut s i).nodes i = some true)
    ∧ (s.suppressed = true → state_mut s i = s)
    ∧ withSuppression (fun t => state_mut t i) s = s := by
  refine ⟨fun hsup => dirtyAt_state_mut_self s i hsup h, fun hsup => ?_, ?_⟩
  · simp [state_mut, hsup]
  · simp [withSuppression, state_mut]

theorem state_mut_dirty_iff_not_suppressed_witness :
    (0 < exS.nodes.length ∧ exS.suppressed = false)
    ∧ dirtyAt (state_mut exS 0).nodes 0 = some true :=
  ⟨⟨by decide, rfl⟩,
    (state_mut_dirty_iff_not_suppressed exS 0 (by decide)).1 rfl⟩

/-- C6 counterexample: the dirty-marking side effect does not wait for
the guard's drop. On the concrete tree `exS` (suppression off, node 0
clean), node 0's dirty flag is already true immediately after the
`state_mut` guard is created, and dropping the guard changes nothing
(`StateGuardMut` has no `Drop` impl), refuting the claim that the flag
is unchanged between creation and drop and set only at drop. -/
theorem guard_drop_side_effects_counterexample :
    dirtyAt exS.nodes 0 = some false
    ∧ dirtyAt (state_mut exS 0).nodes 0 = some true
    ∧ stateGuardMutDrop (state_mut exS 0) = state_mut exS 0 := by
  decide

/-- C6 amended: the dirty-marking side effect of a mutable state guard
fires at the point the guard is created (when suppression is off), and
the guard's drop performs no side effects at all — the runtime state is
unchanged by the drop. -/
theorem guard_side_effects_fire_at_creation (s : AppState) (i : Nat)
    (hsup : s.suppressed = false) (h : i < s.nodes.length) :
    dirtyAt (state_mut s i).nodes i = some true
    ∧ ∀ t : AppState, stateGuardMutDrop t = t :=
  ⟨dirtyAt_state_mut_self s i hsup h, fun _ => rfl⟩

theorem guard_side_effects_fire_at_creation_witness :
    (exS.suppressed = false ∧ 0 < exS.nodes.length)
    ∧ dirtyAt (state_mut exS 0).nodes 0 = some true :=
  ⟨⟨rfl, by decide⟩,
    (guard_side_effects_fire_at_creation exS 0 rfl (by decide)).1⟩

/-- C8: read access to state has no side effects: `state()` and
`InheritedState::as_ref` return with the runtime state — every dirty
flag, every dependents set, and the suppression flag — unchanged,
whatever the suppression flag currently is. -/
theorem read_access_has_no_side_effects (s : AppState) (i : Nat) :
    (state s i).1 = s ∧ (InheritedState.as_ref s i).1 = s :=
  ⟨rfl, rfl⟩

/-- C7: dereferencing a state guard with expected state type `t` panics
(`none`) exactly when the erased value's dynamic type is not `t`; when
the dynamic type matches it yields the stored value; in particular a
state created by the facade for a widget whose state type identity is
`id` dereferences at that type without panicking, yielding the initial
state. -/
theorem state_guard_deref_type_safety (e : ErasedState) (t : TypeTag) :
    (stateGuardDeref e t = none ↔ e.tag ≠ t)
    ∧ (e.tag = t → stateGuardDeref e t = some e.val)
    ∧ ∀ id init,
        stateGuardDeref (create_state (WidgetConf.stateful id init))
          (TypeTag.stateTy id) = some init := by
  refine ⟨?_, ?_, fun id init => ?_⟩
  · by_cases h : e.tag = t <;> simp [stateGuardDeref, downcast, h]
  · intro h; simp [stateGuardDeref, downcast, h]
  · simp [stateGuardDeref, downcast, create_state]

theorem state_guard_deref_type_safety_witness :
    ({ tag := TypeTag.stateTy 3, val := 5 } : ErasedState).tag
        = TypeTag.stateTy 3
    ∧ stateGuardDeref { tag := TypeTag.stateTy 3, val := 5 }
        (TypeTag.stateTy 3) = some 5 :=
  ⟨rfl, (state_guard_deref_type_safety
    { tag := TypeTag.stateTy 3, val := 5 } (TypeTag.stateTy 3)).2.1 rfl⟩

/-- C3 counterexample: for a widget that does not implement
`WidgetState` the facade's default `create_state` boxes
`RefCell::new(())`, whose dynamic type differs from the distinguished
`WidgetHasNoState` identity that the default `state_type_id` returns —
so the boxed value's concrete type does not equal the facade's type
identity for that widget. -/
theorem create_state_type_id_counterexample :
    (create_state WidgetConf.stateless).tag
      ≠ state_type_id WidgetConf.stateless := by
  decide

/-- C3 amended: for widgets implementing `WidgetState` the dynamic type
of the boxed value returned by `create_state` equals the identity
returned by `state_type_id` (both are `T::State`); for stateless
widgets the two disagree: `state_type_id` returns the distinguished
`WidgetHasNoState` identity while `create_state` returns a value whose
dynamic type is `RefCell<()>`. -/
theorem create_state_type_id_amended :
    (∀ id init, (create_state (WidgetConf.stateful id init)).tag
        = state_type_id (WidgetConf.stateful id init))
    ∧ (create_state WidgetConf.stateless).tag = TypeTag.refCellUnit
    ∧ state_type_id WidgetConf.stateless = TypeTag.widgetHasNoState :=
  ⟨fun _ _ => rfl, rfl, rfl⟩

/-- C4: comparing two erased configurations of differing concrete types
returns the value "not equal" (no panic) having emitted a diagnostic;
for configurations of the same concrete type the result is the widget's
own structural-equality comparison with no diagnostic. -/
theorem structural_eq_mismatch_safe (structEq : Nat → Nat → Nat → Bool)
    (self other : ErasedWidget) :
    (other.tyId ≠ self.tyId →
      (StructuralEqOS.eq structEq self other).verdict = false
      ∧ (StructuralEqOS.eq structEq self other).diagnostics ≠ [])
    ∧ (other.tyId = self.tyId →
      StructuralEqOS.eq structEq self other =
        { verdict := structEq self.tyId self.val other.val,
          diagnostics := [] }) := by
  constructor
  · intro h
    simp [StructuralEqOS.eq, h]
  · intro h
    simp [StructuralEqOS.eq, h]

theorem structural_eq_mismatch_safe_witness :
    ((StructuralEqOS.eq (fun _ a b => a == b)
        { tyId := 0, val := 3 } { tyId := 1, val := 3 }).verdict = false
      ∧ (StructuralEqOS.eq (fun _ a b => a == b)
        { tyId := 0, val := 3 } { tyId := 1, val := 3 }).diagnostics ≠ [])
    ∧ StructuralEqOS.eq (fun _ a b => a == b)
        { tyId := 0, val := 3 } { tyId := 0, val := 3 } =
        { verdict := true, diagnostics := [] } := by
  refine ⟨structural_eq_mismatch_safe (fun _ a b => a == b)
    { tyId := 0, val := 3 } { tyId := 1, val := 3 } |>.1 (by decide), ?_⟩
  have h := (structural_eq_mismatch_safe (fun _ a b => a == b)
    { tyId := 0, val := 3 } { tyId := 0, val := 3 }).2 rfl
  simpa using h

/-- C2: with suppression off, `InheritedState::as_mut` on ancestor `a`
whose current dependents set is `deps` marks exactly `a` and the members
of `deps` dirty: for every node `j`, the dirty flag after the call is
true when `j = a` or `j ∈ deps`, and is the old flag otherwise — so
members of `deps` are all marked, nodes outside `{a} ∪ deps` are
untouched (no transitive propagation to dependents of dependents), and
marking an already-dirty node leaves it dirty. -/
theorem as_mut_marks_exactly_dependents (s : AppState) (a : Nat)
    (deps : List Nat) (hsup : s.suppressed = false)
    (hdeps : depsAt s.nodes a = some deps) :
    ∀ j : Nat,
      dirtyAt (InheritedState.as_mut s a).nodes j =
        if j = a ∨ j ∈ deps then (dirtyAt s.nodes j).map (fun _ => true)
        else dirtyAt s.nodes j := by
  intro j
  have hnodes : (InheritedState.as_mut s a).nodes
      = deps.foldl markDirty (markDirty s.nodes a) := by
    simp only [InheritedState.as_mut, hsup, Bool.false_eq_true, if_false]
    exact markDependentsDirty_eq (markDirty s.nodes a) a deps
      (by rw [depsAt_markDirty]; exact hdeps)
  rw [hnodes, dirtyAt_foldl_markDirty, dirtyAt_markDirty]
  by_cases hjd : j ∈ deps <;> by_cases hja : j = a
  · rw [if_pos hjd, if_pos hja, if_pos (Or.inl hja)]
    cases dirtyAt s.nodes j <;> rfl
  · rw [if_pos hjd, if_neg hja, if_pos (Or.inr hjd)]
  · rw [if_neg hjd, if_pos hja, if_pos (Or.inl hja)]
  · rw [if_neg hjd, if_neg hja, if_neg (by simp [hja, hjd])]

theorem as_mut_marks_exactly_dependents_witness :
    dirtyAt (InheritedState.as_mut exS 0).nodes 0 = some true
    ∧ dirtyAt (InheritedState.as_mut exS 0).nodes 1 = some true
    ∧ dirtyAt (InheritedState.as_mut exS 0).nodes 2 = some false := by
  have h := as_mut_marks_exactly_dependents exS 0 [1] rfl (by decide)
  refine ⟨?_, ?_, ?_⟩
  · rw [h 0]; decide
  · rw [h 1]; decide
  · rw [h 2]; decide

/-- C5: `depend_on_inherited_widget` returns `none` (no panic) exactly
when no ancestor in the node's parent chain has the requested kind, and
then the runtime state — in particular every dependents set — is
unchanged; when it returns `some a`, the handle `a` is an ancestor of
the requested kind, `a`'s dependents set gains the current node's
identity (a no-op if already present), and every other node is
unchanged. -/
theorem depend_on_inherited_widget_lookup (s : AppState) (i key : Nat) :
    ((depend_on_inherited_widget s i key).2 = none ↔
      ∀ j ∈ ancestorChain s.nodes s.nodes.length (parentOf s.nodes i),
        kindAt s.nodes j ≠ some key)
    ∧ ((depend_on_inherited_widget s i key).2 = none →
        (depend_on_inherited_widget s i key).1 = s)
    ∧ (∀ a, (depend_on_inherited_widget s i key).2 = some a →
        kindAt s.nodes a = some key
        ∧ a ∈ ancestorChain s.nodes s.nodes.length (parentOf s.nodes i)
        ∧ (∀ ds, depsAt s.nodes a = some ds →
            depsAt (depend_on_inherited_widget s i key).1.nodes a =
              some (if i ∈ ds then ds else ds ++ [i]))
        ∧ (∀ b, b ≠ a →
            (depend_on_inherited_widget s i key).1.nodes[b]? =
              s.nodes[b]?)) := by
  cases hf : findAncestorOfKey s.nodes key s.nodes.length
      (parentOf s.nodes i) with
  | none =>
    have h2 : depend_on_inherited_widget s i key = (s, none) := by
      unfold depend_on_inherited_widget
      rw [hf]
    refine ⟨?_, fun _ => by rw [h2], fun a ha => ?_⟩
    · rw [h2]
      exact ⟨fun _ => (findAncestorOfKey_eq_none_iff _ _ _ _).mp hf,
        fun _ => rfl⟩
    · rw [h2] at ha
      exact absurd ha (by simp)
  | some a0 =>
    have h2 : depend_on_inherited_widget s i key
        = ({ s with nodes := addDependent s.nodes a0 i }, some a0) := by
      unfold depend_on_inherited_widget
      rw [hf]
    refine ⟨?_, fun hn => ?_, fun a ha => ?_⟩
    · rw [h2]
      constructor
      · intro hcontra
        exact absurd hcontra (by simp)
      · intro hall
        have hnone := (findAncestorOfKey_eq_none_iff s.nodes key
          s.nodes.length (parentOf s.nodes i)).mpr hall
        rw [hf] at hnone
        exact absurd hnone (by simp)
    · rw [h2] at hn
      exact absurd hn (by simp)
    · rw [h2] at ha
      obtain rfl : a0 = a := Option.some.inj ha
      refine ⟨findAncestorOfKey_kind _ _ _ _ _ hf,
        findAncestorOfKey_mem_chain _ _ _ _ _ hf, fun ds hds => ?_,
        fun b hb => ?_⟩
      · rw [h2]
        cases hg : s.nodes[a0]? with
        | none => simp [depsAt, hg] at hds
        | some n =>
          simp only [depsAt, hg, Option.map_some', Option.some.injEq] at hds
          rw [depsAt_addDependent_self s.nodes a0 i n hg, hds]
      · rw [h2]
        exact getElem?_addDependent_ne s.nodes a0 i b hb

theorem depend_on_inherited_widget_lookup_witness :
    (depend_on_inherited_widget exS 2 99).1 = exS
    ∧ depsAt (depend_on_inherited_widget exS 2 7).1.nodes 0 =
        some [1, 2] := by
  constructor
  · exact (depend_on_inherited_widget_lookup exS 2 99).2.1 (by decide)
  · have h := ((depend_on_inherited_widget_lookup exS 2 7).2.2 0
      (by decide)).2.2.1 [1] (by decide)
    simpa using h

/-- C9: `Container::layout` lays out the child with the incoming
constraints whose `max_width`/`max_height` are replaced by the
container's `width`/`height` when those are `Some`, and the returned
size's dimensions are the container's `width`/`height` when `Some`
(regardless of the child's resulting size), else the child's resulting
dimensions. -/
theorem container_layout_dimension_override {α : Type} (c : Container α)
    (childLayout : Constraints α → Size α) (cs : Constraints α) :
    (c.layout childLayout cs =
      { width := c.width.getD (childLayout
          { cs with max_width := c.width.getD cs.max_width,
                    max_height := c.height.getD cs.max_height }).width,
        height := c.height.getD (childLayout
          { cs with max_width := c.width.getD cs.max_width,
                    max_height := c.height.getD cs.max_height }).height })
    ∧ (∀ w, c.width = some w → (c.layout childLayout cs).width = w)
    ∧ (∀ h, c.height = some h → (c.layout childLayout cs).height = h) := by
  refine ⟨rfl, fun w hw => ?_, fun h hh => ?_⟩
  · simp [Container.layout, hw]
  · simp [Container.layout, hh]

theorem container_layout_dimension_override_witness :
    (Container.layout { width := some 5, height := none }
      (fun cs => { width := cs.max_width, height := cs.max_height })
      { min_width := 0, max_width := 9, min_height := 0,
        max_height := 4 } : Size Nat).width = 5 :=
  (container_layout_dimension_override
    { width := some 5, height := none }
    (fun cs => { width := cs.max_width, height := cs.max_height })
    { min_width := 0, max_width := 9, min_height := 0,
      max_height := 4 }).2.1 5 rfl

/-- C10: a `KeyboardEventDetector` node's state is created as `None`;
`unmount` with state `None` panics on the `unwrap` (modelled `none`);
`unmount` with state `Some k` unregisters `k` from the external listener
registry and returns with the state reset to `None`. -/
theorem keyboard_detector_lifecycle (registry : List Nat) (k : Nat) :
    KeyboardEventDetector.create_state = none
    ∧ KeyboardEventDetector.unmount none registry = none
    ∧ KeyboardEventDetector.unmount (some k) registry =
        some (none, Listeners.unregister registry k) :=
  ⟨rfl, rfl, rfl⟩

end Frui
